import Mathlib

/-!
Verification of the automation lifecycle registry of theCouncil.

The registry code lives in src/application/automation_registry/registry.py;
the request boundary in src/vercel_api.py; the creation wizard in
create_automation.py.  The definitions below are a shallow embedding of
those Python functions: the in-memory dict becomes an association list with
dict semantics (unique keys, insert replaces in place, delete removes the
key's entry), `async` storage calls become explicit state passing over a
`Storage` record, and the environment facts the code branches on (is blob
storage available, does a given I/O call raise) become an explicit
`StorageEnv` oracle, universally quantified in the theorems.
-/

deriving instance DecidableEq for Except

namespace TheCouncil

/-- Modelled from the spec: the Endpoint record of the data model (spec section 3).
The domain model file `src/domain/automation/models.py` is not part of the sources;
its fields are taken from the spec and from the dicts built by the wizard. -/
structure Endpoint where
  id : String
  path : String
  method : String
  description : String
  summary : String
  active : Bool
deriving DecidableEq, Repr

/-- Modelled from the spec: the automation status enum `AutomationStatus`
(spec section 4.2: DRAFT, ACTIVE, DELETED). -/
inductive AutomationStatus
  | DRAFT
  | ACTIVE
  | DELETED
deriving DecidableEq, Repr

/-- Modelled from the spec: the Automation entity (spec section 3).  The file
`src/domain/automation/models.py` is not part of the sources; the fields are the
ones the spec lists.  `id = ""` models a Python-falsy id (absent or empty), which
is the condition `if not automation.id` in `register_automation`.  `db_config`
is an opaque blob the core passes through, modelled as a string. -/
structure Automation where
  id : String
  name : String
  display_name : String
  description : String
  version : String
  base_path : String
  status : AutomationStatus
  endpoints : List Endpoint
  db_config : String
  created_at : String
  updated_at : String
deriving DecidableEq, Repr

/-! ### Dict model

`self._automations: Dict[str, Automation]` is embedded as an association list
with Python-dict semantics: `lookupA` finds the entry for a key, `insertA`
replaces in place (keeping insertion order, as Python dicts do) or appends,
`eraseA` drops the key's entry.  A dict never holds two entries for one key, so
`eraseA` dropping every entry of the key is the faithful embedding of `pop`. -/

/-- Generic association-list store, used both for the in-memory map (keyed by
name) and for the two durable stores (keyed by id). -/
abbrev AutoMap := List (String × Automation)

def lookupA : AutoMap → String → Option Automation
  | [], _ => none
  | (k, a) :: rest, k' => if k = k' then some a else lookupA rest k'

def containsA (m : AutoMap) (k : String) : Bool :=
  (lookupA m k).isSome

def insertA : AutoMap → String → Automation → AutoMap
  | [], k, a => [(k, a)]
  | (k', a') :: rest, k, a =>
      if k' = k then (k, a) :: rest else (k', a') :: insertA rest k a

def eraseA : AutoMap → String → AutoMap
  | [], _ => []
  | (k', a') :: rest, k =>
      if k' = k then eraseA rest k else (k', a') :: eraseA rest k

/-! ### Storage model

`_save_automation` / `_save_automation_to_file` and the deletion code talk to
two stores: Vercel blob storage and the local filesystem directory, both keyed
by automation id.  Whether blob storage is used and whether each individual I/O
call raises is environment-determined; `StorageEnv` records those facts so the
theorems can quantify over them. -/

structure Storage where
  blob : AutoMap
  files : AutoMap
deriving DecidableEq, Repr

/-- Environment oracle: `useBlob` is `BLOB_STORAGE_AVAILABLE and
BlobStorageAdapter.is_available()`; the `Fails` flags say whether the
corresponding I/O call raises an exception when the code reaches it.
`mkdirFails` is the `os.makedirs(self._storage_dir, exist_ok=True)` call at
registry.py line 267 raising an OSError (for example on a read-only
filesystem); that call sits OUTSIDE the try/except of
`_save_automation_to_file`, so its exception propagates. -/
structure StorageEnv where
  useBlob : Bool
  blobSaveFails : Bool
  fileSaveFails : Bool
  blobDeleteFails : Bool
  fileDeleteFails : Bool
  mkdirFails : Bool
deriving DecidableEq, Repr

/-- `AutomationRegistry._save_automation_to_file` (registry.py lines 259-275):
first `os.makedirs` at line 267, which is NOT inside the try/except — its
OSError propagates to the caller (`.error`); then the `open`/`json.dump` write
at lines 270-275, whose exception is caught and logged, leaving the store
unchanged. -/
def save_automation_to_file (env : StorageEnv) (s : Storage) (id : String)
    (a : Automation) : Except String Storage :=
  if env.mkdirFails then .error "OSError: os.makedirs failed"
  else if env.fileSaveFails then .ok s
  else .ok { s with files := insertA s.files id a }

/-- `AutomationRegistry._save_automation` (registry.py lines 232-257): saves to
blob storage when available; any error there is caught and the save is retried
against the filesystem store.  The fallback call at line 254 and the non-blob
call at line 257 are unguarded, so an error escaping
`_save_automation_to_file` (the makedirs one) propagates further. -/
def save_automation (env : StorageEnv) (s : Storage) (a : Automation) :
    Except String Storage :=
  if env.useBlob then
    if env.blobSaveFails then save_automation_to_file env s a.id a
    else .ok { s with blob := insertA s.blob a.id a }
  else save_automation_to_file env s a.id a

/-- Blob-side half of `delete_automation` (registry.py lines 194-200): only runs
when blob storage is in use; an error is caught and logged. -/
def delete_blob (env : StorageEnv) (s : Storage) (id : String) : Storage :=
  if env.useBlob then
    if env.blobDeleteFails then s else { s with blob := eraseA s.blob id }
  else s

/-- File-side half of `delete_automation` (registry.py lines 202-208):
`os.remove` only if the file exists; an error is caught and logged. -/
def delete_file (env : StorageEnv) (s : Storage) (id : String) : Storage :=
  if containsA s.files id ∧ ¬ env.fileDeleteFails then
    { s with files := eraseA s.files id }
  else s

/-! ### Registry state and operations -/

/-- The mutable state of an `AutomationRegistry` instance together with the
durable stores it writes through to. -/
structure RegState where
  automations : AutoMap
  storage : Storage
deriving DecidableEq, Repr

/-- Typed failures raised by the registry: `duplicateName` is the Python
`ValueError` raised by `register_automation` / `create_automation` on an
existing name (the spec calls it `DuplicateNameError`), `notFound` is
`AutomationNotFoundError` (the spec's `NotFoundError`), and `osError` is an
OSError escaping the storage layer (the unguarded `os.makedirs` in
`_save_automation_to_file`), which propagates through the mutation methods to
their caller. -/
inductive RegError
  | duplicateName (msg : String)
  | notFound (msg : String)
  | osError (msg : String)
deriving DecidableEq, Repr

/-- The id assignment in `register_automation` (registry.py lines 133-135):
`if not automation.id: automation.id = str(uuid4())`. -/
def assignId (a : Automation) (freshId : String) : Automation :=
  if a.id = "" then { a with id := freshId } else a

/-- `AutomationRegistry.register_automation` (registry.py lines 117-143).
The duplicate check raises before any mutation, so that branch returns the
input state.  Otherwise the map insert at line 137 happens BEFORE the
`await self._save_automation(...)` at line 140: when the save raises (the
makedirs OSError), the exception propagates to the caller with the in-memory
insert already applied and the durable stores untouched.  `freshId` stands for
the `str(uuid4())` drawn when the automation arrives without an id. -/
def register_automation (env : StorageEnv) (st : RegState) (a : Automation)
    (freshId : String) : RegState × Except RegError Automation :=
  match lookupA st.automations a.name with
  | some _ =>
      (st, .error (.duplicateName
        ("Automation with name " ++ a.name ++ " already exists")))
  | none =>
      match save_automation env st.storage (assignId a freshId) with
      | .ok s =>
          ({ automations := insertA st.automations (assignId a freshId).name
               (assignId a freshId),
             storage := s }, .ok (assignId a freshId))
      | .error e =>
          ({ automations := insertA st.automations (assignId a freshId).name
               (assignId a freshId),
             storage := st.storage }, .error (.osError e))

/-- `AutomationRegistry.update_automation` (registry.py lines 145-172): not
found raises with no state change; otherwise the new definition, with the
original id written over its id field, replaces the entry under the lookup key
`name` at line 166 BEFORE the save at line 169 — a save exception (the
makedirs OSError) propagates with the in-memory update already applied. -/
def update_automation (env : StorageEnv) (st : RegState) (name : String)
    (updated : Automation) : RegState × Except RegError Automation :=
  match lookupA st.automations name with
  | none =>
      (st, .error (.notFound ("Automation " ++ name ++ " not found")))
  | some orig =>
      match save_automation env st.storage { updated with id := orig.id } with
      | .ok s =>
          ({ automations := insertA st.automations name
               { updated with id := orig.id },
             storage := s }, .ok { updated with id := orig.id })
      | .error e =>
          ({ automations := insertA st.automations name
               { updated with id := orig.id },
             storage := st.storage }, .error (.osError e))

/-- `AutomationRegistry.delete_automation` (registry.py lines 174-211): pops
the entry from the in-memory map first, then best-effort deletes from blob
storage and from the file store; both storage steps catch their exceptions, so
the return value and the map are independent of storage outcome. -/
def delete_automation (env : StorageEnv) (st : RegState) (name : String) :
    RegState × Bool :=
  match lookupA st.automations name with
  | none => (st, false)
  | some a =>
      ({ automations := eraseA st.automations name,
         storage := delete_file env (delete_blob env st.storage a.id) a.id },
       true)

/-- First name in dict iteration order whose automation has the given id:
the scan in `delete_automation_by_id` (registry.py lines 224-227). -/
def find_name_by_id : AutoMap → String → Option String
  | [], _ => none
  | (k, a) :: rest, id => if a.id = id then some k else find_name_by_id rest id

/-- What `delete_automation_by_id` actually hands back: at registry.py line 227
it does `return self.delete_automation(name)` WITHOUT `await`, so the caller
receives the un-started coroutine object instead of a Bool, and the body of
`delete_automation` never runs. -/
inductive DeleteByIdResult
  | unawaitedCoroutine (name : String)
  | result (b : Bool)
deriving DecidableEq, Repr

/-- `AutomationRegistry.delete_automation_by_id` (registry.py lines 213-230),
embedded as written: because the `delete_automation` call is not awaited, no
deletion is performed and the state is returned unchanged; only the
id-not-found branch produces an actual Bool (`False`). -/
def delete_automation_by_id (st : RegState) (id : String) :
    RegState × DeleteByIdResult :=
  match find_name_by_id st.automations id with
  | some name => (st, .unawaitedCoroutine name)
  | none => (st, .result false)

/-! `AutomationRegistry.create_automation` also exists (registry.py lines
277-308); it builds a fresh DRAFT automation and defers to
`register_automation`.  The claims here are settled against
`register_automation`, which both creation paths go through. -/

/-! ### Startup load

`load_automations` (registry.py lines 36-79).  A stored record either parses to
an Automation or fails (bad JSON, parse_obj error, unreadable blob/file); a
record is embedded as that outcome.  Branch structure of the source: in the
blob branch the listing is wrapped in one try and each record load in its own
inner try, so a bad record is skipped and the loop continues; in the file
branch ONE try wraps the whole directory loop, so the first bad record aborts
the remaining iterations. -/

inductive RawRecord
  | ok (a : Automation)
  | bad (key : String)
deriving DecidableEq, Repr

/-- Blob branch of `load_automations` (registry.py lines 47-61): per-record
try/except, bad records skipped. -/
def load_from_blob_keys : List RawRecord → AutoMap → AutoMap
  | [], m => m
  | .ok a :: rest, m => load_from_blob_keys rest (insertA m a.name a)
  | .bad _ :: rest, m => load_from_blob_keys rest m

/-- File branch of `load_automations` (registry.py lines 68-79): a single
try/except around the whole loop, so the first record that raises ends the
load; records already loaded are kept. -/
def load_from_files : List RawRecord → AutoMap → AutoMap
  | [], m => m
  | .ok a :: rest, m => load_from_files rest (insertA m a.name a)
  | .bad _ :: _, m => m

/-- `AutomationRegistry.load_automations` (registry.py lines 36-79):
source selection, the blob listing failure aborting the whole blob load. -/
def load_automations (useBlob blobListFails : Bool) (records : List RawRecord)
    (m : AutoMap) : AutoMap :=
  if useBlob then
    if blobListFails then m else load_from_blob_keys records m
  else load_from_files records m

/-- True when no record of the list fails to load. -/
def allOk : List RawRecord → Bool
  | [] => true
  | .ok _ :: rest => allOk rest
  | .bad _ :: _ => false

/-! ### Request boundary middleware (src/vercel_api.py lines 82-95) -/

/-- Outcome of the `handle_deleted_automations` middleware: either the explicit
404 JSON response for a deleted endpoint, or `call_next` (normal routing). -/
inductive MiddlewareResponse
  | deletedJson (status : Nat) (detail : String)
  | passThrough
deriving DecidableEq, Repr

/-- Python's `s.startswith(p)`, computed on the character lists. -/
def strStartsWith (s p : String) : Bool :=
  p.data.isPrefixOf s.data

/-- `handle_deleted_automations` (vercel_api.py lines 82-95): only paths under
`/api/` are checked; with the router manager present in `app.state`, a positive
`is_deleted_automation_path` short-circuits to a fixed 404 JSON body; every
other request goes to `call_next`. -/
def handle_deleted_automations (path : String) (hasRouterManager : Bool)
    (isDeletedAutomationPath : String → Bool) : MiddlewareResponse :=
  if strStartsWith path "/api/" then
    if hasRouterManager && isDeletedAutomationPath path then
      .deletedJson 404 "This automation endpoint has been deleted."
    else .passThrough
  else .passThrough

/-! ### Creation wizard (create_automation.py lines 218-295)

The wizard collects name, display name, description and a list of endpoint
inputs, then builds the automation dict.  Non-deterministic inputs (uuid4
draws, datetime.now, DATABASE_URL) are passed in as parameters. -/

/-- One endpoint as collected by the wizard loop (create_automation.py lines
242-253): id, path, method (already upper-cased), description. -/
structure WizardEndpointInput where
  id : String
  path : String
  method : String
  description : String
deriving DecidableEq, Repr

/-- create_automation.py lines 280-284: each collected endpoint gets
`summary = description` and `active = True` added. -/
def wizard_endpoint (e : WizardEndpointInput) : Endpoint :=
  { id := e.id, path := e.path, method := e.method,
    description := e.description, summary := e.description, active := true }

/-- The implicit health-check endpoint (create_automation.py lines 286-295):
`GET /health`, active, fixed summary, descriptive text derived from the
automation name; `healthId` is its `str(uuid.uuid4())`. -/
def health_endpoint (name healthId : String) : Endpoint :=
  { id := healthId, path := "/health", method := "GET",
    description := "Health check endpoint for " ++ name ++ " automation",
    summary := "Health Status", active := true }

/-- The automation dict the wizard builds (create_automation.py lines 259-295).
The dict carries no `status` key, so the embedding mirrors exactly the keys the
wizard writes.  `db_config` is kept as the collection name it derives, the only
part of the blob that depends on wizard input. -/
structure WizardAutomation where
  id : String
  name : String
  display_name : String
  description : String
  created_at : String
  updated_at : String
  version : String
  base_path : String
  endpoints : List Endpoint
  db_config_collection : String
deriving DecidableEq, Repr

/-- create_automation.py lines 259-295: the automation dict, with
`base_path = "/" + name`, the caller's endpoints enriched by `wizard_endpoint`,
and the health endpoint appended last. -/
def wizard_build_automation (automationId name displayName description
    createdAt healthId : String) (inputs : List WizardEndpointInput) :
    WizardAutomation :=
  { id := automationId, name := name, display_name := displayName,
    description := description, created_at := createdAt,
    updated_at := createdAt, version := "1.0.0",
    base_path := "/" ++ name,
    endpoints := inputs.map wizard_endpoint ++ [health_endpoint name healthId],
    db_config_collection := name.replace "-" "_" ++ "_collection" }

/-! ### Operation sequences (for the global registry invariant) -/

/-- One administrative registry operation, with the environment draws it
consumes (the fresh uuid for a create). -/
inductive RegOp
  | create (a : Automation) (freshId : String)
  | update (name : String) (a : Automation)
  | delete (name : String)
deriving DecidableEq, Repr

/-- The state after one operation (errors propagate to the administrative
caller and leave the registry unchanged, as encoded in the operations). -/
def applyOp (env : StorageEnv) (st : RegState) : RegOp → RegState
  | .create a freshId => (register_automation env st a freshId).1
  | .update n a => (update_automation env st n a).1
  | .delete n => (delete_automation env st n).1

def runOps (env : StorageEnv) (st : RegState) : List RegOp → RegState
  | [] => st
  | op :: rest => runOps env (applyOp env st op) rest

/-- The in-memory key an operation targets: the automation's own name for a
create, the lookup-name argument for update and delete. -/
def opKey : RegOp → String
  | .create a _ => a.name
  | .update n _ => n
  | .delete n => n

/-- Whether the operation succeeds against the given map: create needs the
name absent, update and delete need it present. -/
def opSucceeds (m : AutoMap) : RegOp → Bool
  | .create a _ => !(containsA m a.name)
  | .update n _ => containsA m n
  | .delete n => containsA m n

def isCreateOrUpdate : RegOp → Bool
  | .create _ _ => true
  | .update _ _ => true
  | .delete _ => false

/-- The last operation in the sequence that targets key `k` and succeeds in
the state it actually runs in (scanning from state `st`). -/
def lastSuccessfulOpOn (env : StorageEnv) (st : RegState) :
    List RegOp → String → Option RegOp
  | [], _ => none
  | op :: rest, k =>
      match lastSuccessfulOpOn env (applyOp env st op) rest k with
      | some o => some o
      | none =>
          if opKey op = k ∧ opSucceeds st.automations op = true then some op
          else none

/-- The empty registry over empty stores. -/
def initState : RegState :=
  { automations := [], storage := { blob := [], files := [] } }

/-! ### Association-list lemmas (dict laws) -/

theorem lookupA_insertA_self (m : AutoMap) (k : String) (a : Automation) :
    lookupA (insertA m k a) k = some a := by
  induction m with
  | nil => simp [insertA, lookupA]
  | cons p rest ih =>
      obtain ⟨k', a'⟩ := p
      by_cases h : k' = k
      · simp [insertA, h, lookupA]
      · simp [insertA, h, lookupA, ih]

theorem lookupA_insertA_ne (m : AutoMap) (k k' : String) (a : Automation)
    (h : k ≠ k') : lookupA (insertA m k a) k' = lookupA m k' := by
  induction m with
  | nil => simp [insertA, lookupA, h]
  | cons p rest ih =>
      obtain ⟨k₀, a₀⟩ := p
      by_cases h0 : k₀ = k
      · subst h0
        simp [insertA, lookupA, h]
      · simp [insertA, h0, lookupA, ih]

theorem lookupA_eraseA_self (m : AutoMap) (k : String) :
    lookupA (eraseA m k) k = none := by
  induction m with
  | nil => rfl
  | cons p rest ih =>
      obtain ⟨k₀, a₀⟩ := p
      by_cases h0 : k₀ = k
      · simp [eraseA, h0, ih]
      · simp [eraseA, h0, lookupA, ih]

theorem lookupA_eraseA_ne (m : AutoMap) (k k' : String) (h : k ≠ k') :
    lookupA (eraseA m k) k' = lookupA m k' := by
  induction m with
  | nil => rfl
  | cons p rest ih =>
      obtain ⟨k₀, a₀⟩ := p
      by_cases h0 : k₀ = k
      · subst h0
        simp [eraseA, lookupA, h, ih]
      · simp [eraseA, h0, lookupA, ih]

theorem containsA_insertA (m : AutoMap) (k k' : String) (a : Automation) :
    containsA (insertA m k a) k' =
      if k = k' then true else containsA m k' := by
  by_cases h : k = k'
  · subst h
    simp [containsA, lookupA_insertA_self]
  · simp [containsA, lookupA_insertA_ne m k k' a h, h]

theorem containsA_eraseA (m : AutoMap) (k k' : String) :
    containsA (eraseA m k) k' =
      if k = k' then false else containsA m k' := by
  by_cases h : k = k'
  · subst h
    simp [containsA, lookupA_eraseA_self]
  · simp [containsA, lookupA_eraseA_ne m k k' h, h]

theorem assignId_name (a : Automation) (freshId : String) :
    (assignId a freshId).name = a.name := by
  unfold assignId
  split <;> rfl

/-- On a fresh name the in-memory insert happens whatever the storage layer
then does (the insert precedes the save in the source). -/
theorem register_automations_eq (env : StorageEnv) (st : RegState)
    (a : Automation) (freshId : String)
    (hn : lookupA st.automations a.name = none) :
    (register_automation env st a freshId).1.automations =
      insertA st.automations a.name (assignId a freshId) := by
  cases h : save_automation env st.storage (assignId a freshId) <;>
    simp [register_automation, hn, h, assignId_name]

/-- On a present name the in-memory update happens whatever the storage layer
then does (the update precedes the save in the source). -/
theorem update_automations_eq (env : StorageEnv) (st : RegState)
    (name : String) (u orig : Automation)
    (ho : lookupA st.automations name = some orig) :
    (update_automation env st name u).1.automations =
      insertA st.automations name { u with id := orig.id } := by
  cases h : save_automation env st.storage { u with id := orig.id } <;>
    simp [update_automation, ho, h]

/-- The storage layer only raises when the unguarded `os.makedirs` fails. -/
theorem save_automation_ok (env : StorageEnv) (stor : Storage)
    (a : Automation) (hm : env.mkdirFails = false) :
    ∃ s, save_automation env stor a = .ok s := by
  unfold save_automation save_automation_to_file
  rw [hm]
  by_cases hb : env.useBlob = true
  · by_cases hbf : env.blobSaveFails = true
    · by_cases hf : env.fileSaveFails = true <;> simp [hb, hbf, hf]
    · simp [hb, hbf]
  · by_cases hf : env.fileSaveFails = true <;>
      simp [Bool.not_eq_true] at hb <;> simp [hb, hf]

/-! ### Per-operation membership law -/

theorem containsA_applyOp (env : StorageEnv) (st : RegState) (op : RegOp)
    (k : String) :
    containsA (applyOp env st op).automations k =
      if opKey op = k then
        (if opSucceeds st.automations op = true then isCreateOrUpdate op
         else containsA st.automations k)
      else containsA st.automations k := by
  cases op with
  | create a freshId =>
      cases h : lookupA st.automations a.name with
      | some e =>
          have hc : containsA st.automations a.name = true := by
            simp [containsA, h]
          simp [applyOp, register_automation, h, opKey, opSucceeds, hc,
            isCreateOrUpdate]
      | none =>
          have hc : containsA st.automations a.name = false := by
            simp [containsA, h]
          have hm := register_automations_eq env st a freshId h
          simp only [applyOp]
          rw [hm, containsA_insertA]
          simp only [opKey, opSucceeds, hc, isCreateOrUpdate, Bool.not_false]
          by_cases hk : a.name = k <;> simp [hk]
  | update n a =>
      cases h : lookupA st.automations n with
      | some orig =>
          have hc : containsA st.automations n = true := by
            simp [containsA, h]
          have hm := update_automations_eq env st n a orig h
          simp only [applyOp]
          rw [hm, containsA_insertA]
          simp only [opKey, opSucceeds, hc, isCreateOrUpdate]
          by_cases hk : n = k <;> simp [hk]
      | none =>
          have hc : containsA st.automations n = false := by
            simp [containsA, h]
          simp only [applyOp, update_automation, h, opKey, opSucceeds, hc,
            isCreateOrUpdate]
          by_cases hk : n = k
          · subst hk
            simp [hc]
          · simp [hk]
  | delete n =>
      cases h : lookupA st.automations n with
      | some a =>
          have hc : containsA st.automations n = true := by
            simp [containsA, h]
          simp only [applyOp, delete_automation, h, opKey, opSucceeds, hc,
            isCreateOrUpdate]
          rw [containsA_eraseA]
          by_cases hk : n = k <;> simp [hk]
      | none =>
          have hc : containsA st.automations n = false := by
            simp [containsA, h]
          simp only [applyOp, delete_automation, h, opKey, opSucceeds, hc,
            isCreateOrUpdate]
          by_cases hk : n = k
          · subst hk
            simp [hc]
          · simp [hk]

/-- Trace law behind the C1 invariant: after running `ops` from any state,
a key is present exactly when its last successful operation in the trace was a
create or update, or no operation on it succeeded and it was present at the
start. -/
theorem containsA_runOps (env : StorageEnv) (ops : List RegOp) (st : RegState)
    (k : String) :
    containsA (runOps env st ops).automations k =
      (match lastSuccessfulOpOn env st ops k with
       | some op => isCreateOrUpdate op
       | none => containsA st.automations k) := by
  induction ops generalizing st with
  | nil => rfl
  | cons op rest ih =>
      show containsA (runOps env (applyOp env st op) rest).automations k = _
      rw [ih (applyOp env st op)]
      cases hlater : lastSuccessfulOpOn env (applyOp env st op) rest k with
      | some o =>
          simp [lastSuccessfulOpOn, hlater]
      | none =>
          simp only [lastSuccessfulOpOn, hlater]
          rw [containsA_applyOp]
          by_cases hk : opKey op = k
          · by_cases hs : opSucceeds st.automations op = true
            · simp [hk, hs]
            · simp [hk, hs]
          · simp [hk]

/-! ### Concrete fixtures used by witnesses and counterexamples -/

/-- A local-development environment: file storage, no I/O failures. -/
def wEnv : StorageEnv :=
  { useBlob := false, blobSaveFails := false, fileSaveFails := false,
    blobDeleteFails := false, fileDeleteFails := false, mkdirFails := false }

/-- An environment in which every storage call fails and blob storage is in
use: the worst durable-storage case. -/
def wEnvAllFail : StorageEnv :=
  { useBlob := true, blobSaveFails := true, fileSaveFails := true,
    blobDeleteFails := true, fileDeleteFails := true, mkdirFails := true }

/-- Blob storage in use but its save failing, and the storage directory not
creatable: the environment in which the fallback file save is reached and its
unguarded `os.makedirs` raises. -/
def wEnvMkdirFail : StorageEnv :=
  { useBlob := true, blobSaveFails := true, fileSaveFails := false,
    blobDeleteFails := false, fileDeleteFails := false, mkdirFails := true }

def wOrders : Automation :=
  { id := "id-1", name := "orders", display_name := "Orders",
    description := "order automation", version := "1.0.0",
    base_path := "/orders", status := .ACTIVE, endpoints := [],
    db_config := "", created_at := "t0", updated_at := "t0" }

/-- A registry already holding `wOrders`. -/
def wSt : RegState :=
  { automations := [("orders", wOrders)],
    storage := { blob := [], files := [] } }

/-- A second definition with the same name (duplicate-create attempt). -/
def wOrdersDup : Automation :=
  { wOrders with id := "", description := "clashing definition" }

/-- A fresh automation with no id yet. -/
def wItems : Automation :=
  { wOrders with id := "", name := "items", base_path := "/items" }

/-- An update definition whose own name differs from the lookup key. -/
def wRenamed : Automation :=
  { wOrders with
    id := ""
    name := "orders-v2"
    description := "renamed definition" }

def cAlpha : Automation :=
  { wOrders with id := "id-a", name := "alpha", base_path := "/alpha" }

def cBeta : Automation :=
  { wOrders with id := "id-b", name := "beta", base_path := "/beta" }

/-! ### Claims -/

/-- C2: creating an automation whose name is already present fails with the
duplicate-name error and leaves the registry state, in particular the existing
automation under that name, unchanged; creating one with a fresh name assigns
an id when the incoming one is empty and stores the entity under its name in
the in-memory map whatever the storage layer does, and whenever the save goes
through (it always does unless the unguarded makedirs raises, see C5) the full
state equation holds: the saved storage is installed and the stored entity is
returned. -/
theorem c2_create_spec (env : StorageEnv) (st : RegState) (a : Automation)
    (freshId : String) :
    (∀ e, lookupA st.automations a.name = some e →
      (register_automation env st a freshId).1 = st ∧
      (register_automation env st a freshId).2 =
        .error (.duplicateName
          ("Automation with name " ++ a.name ++ " already exists")) ∧
      lookupA (register_automation env st a freshId).1.automations a.name =
        some e) ∧
    (lookupA st.automations a.name = none →
      (register_automation env st a freshId).1.automations =
        insertA st.automations a.name (assignId a freshId) ∧
      lookupA (register_automation env st a freshId).1.automations a.name =
        some (assignId a freshId) ∧
      (∀ s, save_automation env st.storage (assignId a freshId) = .ok s →
        register_automation env st a freshId =
          ({ automations := insertA st.automations a.name (assignId a freshId),
             storage := s },
           .ok (assignId a freshId)))) := by
  constructor
  · intro e he
    refine ⟨?_, ?_, ?_⟩ <;> simp [register_automation, he]
  · intro hn
    have hm := register_automations_eq env st a freshId hn
    refine ⟨hm, ?_, ?_⟩
    · rw [hm]
      exact lookupA_insertA_self _ _ _
    · intro s hs
      simp [register_automation, hn, hs, assignId_name]

/-- Witness for C2 at concrete inputs: a duplicate create of `orders` is
rejected and leaves `wOrders` in place; a create of `items` with an empty id
gets the fresh id, lands in the map, and with the concrete successful save the
full state equation holds. -/
theorem c2_create_spec_witness :
    ((register_automation wEnv wSt wOrdersDup "f1").1 = wSt ∧
     (register_automation wEnv wSt wOrdersDup "f1").2 =
       .error (.duplicateName
         ("Automation with name " ++ wOrdersDup.name ++ " already exists")) ∧
     lookupA (register_automation wEnv wSt wOrdersDup "f1").1.automations
       wOrdersDup.name = some wOrders) ∧
    ((register_automation wEnv wSt wItems "f2").1.automations =
       insertA wSt.automations wItems.name (assignId wItems "f2") ∧
     lookupA (register_automation wEnv wSt wItems "f2").1.automations
       wItems.name = some (assignId wItems "f2") ∧
     register_automation wEnv wSt wItems "f2" =
       ({ automations := insertA wSt.automations wItems.name
            (assignId wItems "f2"),
          storage := { blob := [], files := [("f2", assignId wItems "f2")] } },
        .ok (assignId wItems "f2"))) := by
  have h2 := (c2_create_spec wEnv wSt wItems "f2").2 (by decide)
  exact ⟨(c2_create_spec wEnv wSt wOrdersDup "f1").1 wOrders (by decide),
    h2.1, h2.2.1, h2.2.2
      { blob := [], files := [("f2", assignId wItems "f2")] } (by decide)⟩

/-- C4: updating an absent name fails with the not-found error and changes no
state; updating a present name stores the new definition with the original id
written over its id field (all other fields are the new definition's), under
the lookup key, and persists it. -/
theorem c4_update_spec (env : StorageEnv) (st : RegState) (name : String)
    (u : Automation) :
    (lookupA st.automations name = none →
       update_automation env st name u =
         (st, .error (.notFound ("Automation " ++ name ++ " not found")))) ∧
    (∀ orig, lookupA st.automations name = some orig →
       (update_automation env st name u).1.automations =
         insertA st.automations name { u with id := orig.id } ∧
       lookupA (update_automation env st name u).1.automations name =
         some { u with id := orig.id } ∧
       ({ u with id := orig.id } : Automation).id = orig.id ∧
       (∀ s, save_automation env st.storage { u with id := orig.id } = .ok s →
         update_automation env st name u =
           ({ automations := insertA st.automations name
                { u with id := orig.id },
              storage := s },
            .ok { u with id := orig.id }))) := by
  constructor
  · intro hn
    simp [update_automation, hn]
  · intro orig ho
    have hm := update_automations_eq env st name u orig ho
    refine ⟨hm, ?_, rfl, ?_⟩
    · rw [hm]
      exact lookupA_insertA_self _ _ _
    · intro s hs
      simp [update_automation, ho, hs]

/-- Witness for C4 at concrete inputs: updating the absent name `ghost` fails
and leaves the state alone; updating `orders` with `wRenamed` keeps id `id-1`,
replaces every other field in the map, and with the concrete successful save
the full state equation holds. -/
theorem c4_update_spec_witness :
    (update_automation wEnv wSt "ghost" wRenamed =
       (wSt, .error (.notFound ("Automation " ++ "ghost" ++ " not found")))) ∧
    ((update_automation wEnv wSt "orders" wRenamed).1.automations =
       insertA wSt.automations "orders" { wRenamed with id := wOrders.id } ∧
     lookupA (update_automation wEnv wSt "orders" wRenamed).1.automations
       "orders" = some { wRenamed with id := wOrders.id } ∧
     ({ wRenamed with id := wOrders.id } : Automation).id = wOrders.id ∧
     update_automation wEnv wSt "orders" wRenamed =
       ({ automations := insertA wSt.automations "orders"
            { wRenamed with id := wOrders.id },
          storage := { blob := [],
                       files := [("id-1", { wRenamed with id := wOrders.id })] } },
        .ok { wRenamed with id := wOrders.id })) := by
  have h2 := (c4_update_spec wEnv wSt "orders" wRenamed).2 wOrders (by decide)
  exact ⟨(c4_update_spec wEnv wSt "ghost" wRenamed).1 (by decide),
    h2.1, h2.2.1, h2.2.2.1, h2.2.2.2
      { blob := [], files := [("id-1", { wRenamed with id := wOrders.id })] }
      (by decide)⟩

/-- C10: a successful update stores the updated entity under the original
lookup key even when the new definition carries a different name: afterwards a
get on the old key returns the updated entity while a get on the new
definition's own name returns none. -/
theorem c10_update_key_divergence (env : StorageEnv) (st : RegState)
    (name : String) (u : Automation) (orig : Automation)
    (h1 : lookupA st.automations name = some orig)
    (h2 : u.name ≠ name)
    (h3 : lookupA st.automations u.name = none) :
    lookupA (update_automation env st name u).1.automations name =
      some { u with id := orig.id } ∧
    lookupA (update_automation env st name u).1.automations u.name = none := by
  have hm := update_automations_eq env st name u orig h1
  constructor
  · rw [hm]
    exact lookupA_insertA_self _ _ _
  · rw [hm]
    rw [lookupA_insertA_ne _ _ _ _ (fun hh => h2 hh.symm)]
    exact h3

/-- Witness for C10: updating key `orders` with a definition named
`orders-v2` leaves the entity under `orders` and nothing under `orders-v2`. -/
theorem c10_update_key_divergence_witness :
    lookupA (update_automation wEnv wSt "orders" wRenamed).1.automations
      "orders" = some { wRenamed with id := wOrders.id } ∧
    lookupA (update_automation wEnv wSt "orders" wRenamed).1.automations
      wRenamed.name = none := by
  exact c10_update_key_divergence wEnv wSt "orders" wRenamed wOrders
    (by decide) (by decide) (by decide)

/-- C3: deleting a present name removes the entry from the in-memory map and
returns true for every storage environment, including ones where the blob and
file deletions raise (storage failures never roll back the in-memory removal);
after the delete the name no longer resolves and re-deleting it returns false
without touching the state; deleting an absent name returns false and changes
nothing. -/
theorem c3_delete_spec (env : StorageEnv) (st : RegState) (name : String) :
    (∀ a, lookupA st.automations name = some a →
       delete_automation env st name =
         ({ automations := eraseA st.automations name,
            storage := delete_file env (delete_blob env st.storage a.id)
              a.id },
          true) ∧
       lookupA (delete_automation env st name).1.automations name = none ∧
       delete_automation env (delete_automation env st name).1 name =
         ((delete_automation env st name).1, false)) ∧
    (lookupA st.automations name = none →
       delete_automation env st name = (st, false)) := by
  constructor
  · intro a ha
    have hgone : lookupA (delete_automation env st name).1.automations name =
        none := by
      simp only [delete_automation, ha]
      exact lookupA_eraseA_self _ _
    refine ⟨by simp [delete_automation, ha], hgone, ?_⟩
    set st2 := (delete_automation env st name).1 with hst2
    simp [delete_automation, hgone]
  · intro hn
    simp [delete_automation, hn]

/-- Witness for C3 in the environment where every durable deletion raises:
deleting `orders` still removes it from the map and returns true, the retry
returns false on the unchanged state, and deleting the absent `ghost` is a
no-op returning false. -/
theorem c3_delete_spec_witness :
    (delete_automation wEnvAllFail wSt "orders" =
       ({ automations := eraseA wSt.automations "orders",
          storage := delete_file wEnvAllFail
            (delete_blob wEnvAllFail wSt.storage wOrders.id) wOrders.id },
        true) ∧
     lookupA (delete_automation wEnvAllFail wSt "orders").1.automations
       "orders" = none ∧
     delete_automation wEnvAllFail
       (delete_automation wEnvAllFail wSt "orders").1 "orders" =
       ((delete_automation wEnvAllFail wSt "orders").1, false)) ∧
    (delete_automation wEnvAllFail wSt "ghost" = (wSt, false)) := by
  exact ⟨(c3_delete_spec wEnvAllFail wSt "orders").1 wOrders (by decide),
    (c3_delete_spec wEnvAllFail wSt "ghost").2 (by decide)⟩

/-- C5 counterexample: with blob storage in use, its save failing, and the
storage directory not creatable, the fallback file save raises the makedirs
OSError (the `os.makedirs` call is outside the try/except) and
`register_automation` for the fresh name `items` hands the mutation caller
that OSError instead of the stored entity — refuting the claim that a storage
failure never propagates an exception to the mutation caller.  The in-memory
insert is nevertheless already applied when the exception escapes. -/
theorem c5_counterexample :
    save_automation wEnvMkdirFail wSt.storage (assignId wItems "f9") =
      .error "OSError: os.makedirs failed" ∧
    (register_automation wEnvMkdirFail wSt wItems "f9").2 =
      .error (.osError "OSError: os.makedirs failed") ∧
    lookupA (register_automation wEnvMkdirFail wSt wItems "f9").1.automations
      "items" = some (assignId wItems "f9") := by
  decide

/-- C5 (amended): a blob-save error is caught and the save retried against the
filesystem variant; the file write's own failure is caught, so whenever the
storage directory is creatable the storage layer raises nothing; the in-memory
mutation is applied whatever the storage outcome; but when the unguarded
`os.makedirs` of the file save runs and fails, its OSError propagates to the
mutation caller. -/
theorem c5_storage_fallback (env : StorageEnv) (stor : Storage) (st : RegState)
    (a : Automation) (freshId : String) :
    (env.useBlob = true → env.blobSaveFails = true →
       save_automation env stor a = save_automation_to_file env stor a.id a) ∧
    (env.mkdirFails = false → ∃ s, save_automation env stor a = .ok s) ∧
    (env.mkdirFails = true →
       (env.useBlob = false ∨ env.blobSaveFails = true) →
       save_automation env stor a = .error "OSError: os.makedirs failed") ∧
    (lookupA st.automations a.name = none →
       lookupA (register_automation env st a freshId).1.automations a.name =
         some (assignId a freshId) ∧
       (env.mkdirFails = false →
         (register_automation env st a freshId).2 =
           .ok (assignId a freshId))) := by
  refine ⟨?_, ?_, ?_, ?_⟩
  · intro hb hf
    simp [save_automation, hb, hf]
  · intro hm
    exact save_automation_ok env stor a hm
  · intro hm hcase
    rcases hcase with hb | hbf
    · simp [save_automation, save_automation_to_file, hb, hm]
    · cases hub : env.useBlob <;>
        simp [save_automation, save_automation_to_file, hub, hbf, hm]
  · intro hn
    constructor
    · rw [register_automations_eq env st a freshId hn]
      exact lookupA_insertA_self _ _ _
    · intro hm
      obtain ⟨s, hs⟩ := save_automation_ok env st.storage (assignId a freshId) hm
      simp [register_automation, hn, hs]

/-- Witness for C5 (amended), discharging each hypothesis at concrete inputs:
the fallback equation in the all-fail blob environment; a successful save in
the benign environment; the propagated makedirs error in `wEnvMkdirFail`; and
the create of `items` that stays applied in-memory even in `wEnvMkdirFail`
while returning ok in the benign environment. -/
theorem c5_storage_fallback_witness :
    (save_automation wEnvAllFail wSt.storage wItems =
       save_automation_to_file wEnvAllFail wSt.storage wItems.id wItems) ∧
    (∃ s, save_automation wEnv wSt.storage wItems = .ok s) ∧
    (save_automation wEnvMkdirFail wSt.storage wItems =
       .error "OSError: os.makedirs failed") ∧
    (lookupA (register_automation wEnvMkdirFail wSt wItems "f9").1.automations
       wItems.name = some (assignId wItems "f9") ∧
     (register_automation wEnv wSt wItems "f9").2 =
       .ok (assignId wItems "f9")) := by
  refine ⟨(c5_storage_fallback wEnvAllFail wSt.storage wSt wItems "f9").1
      (by decide) (by decide),
    (c5_storage_fallback wEnv wSt.storage wSt wItems "f9").2.1 (by decide),
    (c5_storage_fallback wEnvMkdirFail wSt.storage wSt wItems "f9").2.2.1
      (by decide) (Or.inr (by decide)),
    ((c5_storage_fallback wEnvMkdirFail wSt.storage wSt wItems "f9").2.2.2
      (by decide)).1,
    ((c5_storage_fallback wEnv wSt.storage wSt wItems "f9").2.2.2
      (by decide)).2 (by decide)⟩

/-- C7: `delete_automation_by_id` as written never deletes anything — the call
`self.delete_automation(name)` at registry.py line 227 is missing `await`, so
the registry state is returned unchanged for every input, and on a matching id
the caller receives the un-awaited coroutine object instead of the documented
`True`.  Concretely, deleting id `id-1` from a registry that holds `orders`
with that id leaves the registry as it was. -/
theorem c7_delete_by_id_noop :
    (∀ (st : RegState) (id : String),
       (delete_automation_by_id st id).1 = st) ∧
    find_name_by_id wSt.automations "id-1" = some "orders" ∧
    delete_automation_by_id wSt "id-1" =
      (wSt, .unawaitedCoroutine "orders") ∧
    lookupA (delete_automation_by_id wSt "id-1").1.automations "orders" =
      some wOrders := by
  refine ⟨?_, by decide, by decide, by decide⟩
  intro st id
  unfold delete_automation_by_id
  cases h : find_name_by_id st.automations id <;> simp

/-- C8: with the router manager installed in app state, every request whose
path falls under the `/api/` prefix is checked against the tombstone predicate
before normal routing, and a positive check short-circuits to the fixed 404
deleted-endpoint response (never a generic server error); a request whose path
is not under the prefix is passed through to normal routing whatever the
predicate would say. -/
theorem c8_middleware (path : String) (pred : String → Bool) :
    (strStartsWith path "/api/" = true →
       handle_deleted_automations path true pred =
         (if pred path then
            MiddlewareResponse.deletedJson 404
              "This automation endpoint has been deleted."
          else MiddlewareResponse.passThrough)) ∧
    (strStartsWith path "/api/" = false →
       ∀ (hrm : Bool) (pred2 : String → Bool),
         handle_deleted_automations path hrm pred2 =
           MiddlewareResponse.passThrough) := by
  constructor
  · intro h
    cases hp : pred path <;> simp [handle_deleted_automations, h, hp]
  · intro h hrm pred2
    simp [handle_deleted_automations, h]

/-- A tombstone predicate that marks every path deleted. -/
def predAll : String → Bool := fun _ => true

/-- Witness for C8: the tombstoned path `/api/items` under the prefix gets the
404 deleted response; the path `/console/x` outside the prefix passes through
even though the predicate marks everything deleted. -/
theorem c8_middleware_witness :
    (strStartsWith "/api/items" "/api/" = true ∧
     handle_deleted_automations "/api/items" true predAll =
       MiddlewareResponse.deletedJson 404
         "This automation endpoint has been deleted.") ∧
    (strStartsWith "/console/x" "/api/" = false ∧
     handle_deleted_automations "/console/x" false predAll =
       MiddlewareResponse.passThrough) := by
  constructor
  · refine ⟨by decide, ?_⟩
    have h := (c8_middleware "/api/items" predAll).1 (by decide)
    simpa [predAll] using h
  · exact ⟨by decide, (c8_middleware "/console/x" predAll).2 (by decide)
      false predAll⟩

/-- C9: the wizard appends the implicit health-check endpoint — `GET /health`,
active — after the caller-supplied endpoints of every automation it builds;
the endpoint's content is fixed by the automation name alone and does not
depend on the caller's endpoint inputs, and the automation's base path is
`"/" + name`, so the health route sits under the base path. -/
theorem c9_health_endpoint (automationId name displayName description
    createdAt healthId : String) (inputs : List WizardEndpointInput) :
    (wizard_build_automation automationId name displayName description
       createdAt healthId inputs).endpoints =
      inputs.map wizard_endpoint ++ [health_endpoint name healthId] ∧
    (wizard_build_automation automationId name displayName description
       createdAt healthId inputs).endpoints.getLast? =
      some (health_endpoint name healthId) ∧
    (health_endpoint name healthId).method = "GET" ∧
    (health_endpoint name healthId).path = "/health" ∧
    (health_endpoint name healthId).active = true ∧
    (wizard_build_automation automationId name displayName description
       createdAt healthId inputs).base_path = "/" ++ name := by
  refine ⟨rfl, ?_, rfl, rfl, rfl, rfl⟩
  show (inputs.map wizard_endpoint ++ [health_endpoint name healthId]).getLast?
    = some (health_endpoint name healthId)
  simp [List.getLast?_concat]

/-- C6 counterexample: loading three file-store records where the middle one
fails to parse keeps only the record before the failure — the loadable record
after it is NOT added — while the blob source loads both good records.  This
refutes the claim that, for the filesystem source too, only the failing record
is skipped. -/
theorem c6_counterexample :
    load_automations false false
      [.ok cAlpha, .bad "broken.json", .ok cBeta] [] = [("alpha", cAlpha)] ∧
    lookupA (load_automations false false
      [.ok cAlpha, .bad "broken.json", .ok cBeta] []) "beta" = none ∧
    load_automations true false
      [.ok cAlpha, .bad "broken.json", .ok cBeta] [] =
      [("alpha", cAlpha), ("beta", cBeta)] := by
  decide

/-- C6 (amended): in the blob source a record that fails to load is skipped
and every other record is still processed; in the filesystem source a failing
record aborts the load — the records loaded before it are kept, the records
after it are dropped. -/
theorem c6_load_skip (pre post : List RawRecord) (k : String) (m : AutoMap) :
    load_from_blob_keys (pre ++ .bad k :: post) m =
      load_from_blob_keys (pre ++ post) m ∧
    (allOk pre = true →
      load_from_files (pre ++ .bad k :: post) m = load_from_files pre m) := by
  induction pre generalizing m with
  | nil => exact ⟨rfl, fun _ => rfl⟩
  | cons r rest ih =>
      cases r with
      | ok a =>
          constructor
          · show load_from_blob_keys (rest ++ .bad k :: post)
              (insertA m a.name a) = _
            exact (ih (insertA m a.name a)).1
          · intro h
            show load_from_files (rest ++ .bad k :: post)
              (insertA m a.name a) = _
            exact (ih (insertA m a.name a)).2 h
      | bad key =>
          constructor
          · exact (ih m).1
          · intro h
            simp [allOk] at h

/-- Witness for C6 (amended) at concrete records: the blob load of
`[alpha, bad, beta]` equals the load of `[alpha, beta]`, and the file load of
`[alpha, bad, beta]` equals the load of just `[alpha]`. -/
theorem c6_load_skip_witness :
    (load_from_blob_keys ([.ok cAlpha] ++ .bad "x.json" :: [.ok cBeta]) [] =
       load_from_blob_keys ([.ok cAlpha] ++ [.ok cBeta]) []) ∧
    allOk [.ok cAlpha] = true ∧
    (load_from_files ([.ok cAlpha] ++ .bad "x.json" :: [.ok cBeta]) [] =
       load_from_files [.ok cAlpha] []) := by
  exact ⟨(c6_load_skip [.ok cAlpha] [.ok cBeta] "x.json" []).1, by decide,
    (c6_load_skip [.ok cAlpha] [.ok cBeta] "x.json" []).2 (by decide)⟩

/-- An update definition for the C1 counterexample whose name differs from the
key it is applied at. -/
def cAlphaV2 : Automation :=
  { cAlpha with
    id := ""
    name := "alpha-v2"
    description := "second version" }

/-- C1 counterexample: after `create alpha` followed by `update alpha` with a
definition named `alpha-v2`, the map holds the updated entity under the key
`alpha` although the entity's own name field is `alpha-v2`, and nothing is
stored under `alpha-v2` — so the entities in the map are not each stored under
their own name. -/
theorem c1_counterexample :
    lookupA (runOps wEnv initState
      [.create cAlpha "f1", .update "alpha" cAlphaV2]).automations "alpha" =
      some { cAlphaV2 with id := "id-a" } ∧
    ({ cAlphaV2 with id := "id-a" } : Automation).name = "alpha-v2" ∧
    ¬ (("alpha-v2" : String) = "alpha") ∧
    lookupA (runOps wEnv initState
      [.create cAlpha "f1", .update "alpha" cAlphaV2]).automations
      "alpha-v2" = none := by
  decide

/-- C1 (amended): for every finite sequence of registry operations starting
from the empty registry, the in-memory map contains a key exactly when the
last operation targeting that key that succeeded was a create or an update
(not a delete); the entry is keyed by the operation's target name, which can
differ from the stored automation's own name field after an update. -/
theorem c1_membership (env : StorageEnv) (ops : List RegOp) (k : String) :
    containsA (runOps env initState ops).automations k =
      (match lastSuccessfulOpOn env initState ops k with
       | some op => isCreateOrUpdate op
       | none => false) := by
  have h := containsA_runOps env ops initState k
  cases hl : lastSuccessfulOpOn env initState ops k with
  | some o => rw [h, hl]
  | none =>
      rw [h, hl]
      rfl

end TheCouncil
